import Mathlib

/-!
Verification of the local sensitivity-analysis pipeline for a 19-variable
neurodegeneration ODE model.  The Python floating-point arithmetic is embedded
as real-number arithmetic; numpy state vectors of length 19 are embedded as
functions from naturals to the reals (indices beyond 18 are 0, matching the
zero-initialised array).  The Python `Parameters` object is embedded as a
record of real fields plus the two real-valued member functions.
-/

open scoped Classical

noncomputable section

/-- Embedding of the Python `Parameters` object: the instance attributes set by
`Parameters.__init__` in `parameters.py`, in source order, plus the two member
functions `d_ABmo` and `Ins` (which Python looks up on the object). -/
structure Parameters where
  AP : ℝ
  S : ℝ
  rho_cerveau : ℝ
  N_0 : ℝ
  A_0 : ℝ
  lambda_ABi : ℝ
  delta_APi : ℝ
  d_ABi : ℝ
  lambda_ABmo : ℝ
  delta_APm : ℝ
  lambda_AABmo : ℝ
  kappa_ABmoABoo : ℝ
  delta_APmo : ℝ
  d_ABmo : ℝ → ℝ
  kappa_ABooABpo : ℝ
  d_ABoo : ℝ
  d_hatMantiABpo : ℝ
  d_MantiABpo : ℝ
  delta_APdp : ℝ
  K_ABpo : ℝ
  Ins : ℝ → ℝ → ℝ
  Ins_0 : ℝ
  d_G : ℝ
  G_0 : ℝ
  lambda_InsG : ℝ
  lambda_tau : ℝ
  lambda_Gtau : ℝ
  kappa_tauFi : ℝ
  d_tau : ℝ
  d_Fi : ℝ
  kappa_MFo : ℝ
  K_Manti : ℝ
  d_Fo : ℝ
  d_FiN : ℝ
  K_Fi : ℝ
  n : ℝ
  d_TaN : ℝ
  K_Ta : ℝ
  K_I10 : ℝ
  A_max : ℝ
  kappa_TaA : ℝ
  kappa_ABpoA : ℝ
  d_A : ℝ
  kappa_FoM : ℝ
  K_Fo : ℝ
  kappa_ABooM : ℝ
  K_ABooM : ℝ
  d_Mpro : ℝ
  d_Manti : ℝ
  beta : ℝ
  K_TaAct : ℝ
  K_I10Act : ℝ
  kappa_TbMpro : ℝ
  K_TbM : ℝ
  kappa_TaManti : ℝ
  K_TaM : ℝ
  kappa_PMhat : ℝ
  K_P : ℝ
  Mhatmax : ℝ
  kappa_TbMhatpro : ℝ
  K_TbMhat : ℝ
  kappa_TaMhatanti : ℝ
  K_TaMhat : ℝ
  d_Mhatpro : ℝ
  d_Mhatanti : ℝ
  kappa_MhatantiTb : ℝ
  kappa_MantiTb : ℝ
  d_Tb : ℝ
  kappa_MhatantiI10 : ℝ
  kappa_MantiI10 : ℝ
  d_I10 : ℝ
  kappa_MhatproTa : ℝ
  kappa_MproTa : ℝ
  d_Ta : ℝ
  kappa_MhatproP : ℝ
  kappa_MproP : ℝ
  kappa_AP : ℝ
  d_P : ℝ

/-- `Parameters.d_ABmo` (method of the class, `parameters.py` lines 19-27):
degradation rate of extracellular amyloid-beta monomer as a function of age in
days, `log 2 / halflife` with a half-life linear in age. -/
def d_ABmoFun (t : ℝ) : ℝ :=
  Real.log 2 / ((7 / 547500) * t + 11 / 600)

/-- `Parameters.Ins` (method of the class, `parameters.py` lines 29-41):
brain insulin concentration as a function of age in days and sex.  The Python
method falls through (returning `None`) for a sex outside `{0, 1}`; that branch
is unreachable for constructible parameter sets and is embedded as the junk
value `0`. -/
def InsFun (t S : ℝ) : ℝ :=
  if S = 0 then 0.1 * (-4.151e-15 * t + 3.460e-10)
  else if S = 1 then 0.1 * (-4.257e-15 * t + 3.763e-10)
  else 0

/-- Avogadro's number as imported from `scipy.constants` (exact SI value). -/
def Avogadro : ℝ := 6.02214076e23

/-- The field assignments of `Parameters.__init__` (`parameters.py` lines
43-406), translated expression for expression.  The sex-conditional fields use
`if S = 0 then (woman value) else (man value)`; for `S ∈ {0, 1}` this agrees
with the Python `if/elif`, and for any other sex `__init__` raises before
returning (see `mkParameters`), so the `else` branch is then unreachable. -/
def mkParametersCore (Sex APOE4_status xi : ℝ) : Parameters :=
  let M_ABm : ℝ := 4514
  let m_Mhat : ℝ := 4.990e-9
  let rho_cerveau : ℝ := 1.03
  let lambda_ABi : ℝ := (3.63e-12 * 1e-3 * M_ABm * 86400) / 2
  let delta_APi : ℝ := (8373 - 2178) / (5631 - 783) - 1
  let lambda_ABmo := lambda_ABi
  let kappa_ABmoABoo_min : ℝ := 38 * 1000 * (1 / (2 * M_ABm)) * 86400
  let d_G : ℝ := Real.log 2 / (41 / 24)
  let G_0 : ℝ := if Sex = 0 then 1104e-12 * 47000 * rho_cerveau else 310e-12 * 47000 * rho_cerveau
  let d_tau : ℝ := Real.log 2 / 5.16
  let K_ABpo : ℝ := (1.11 + 0.53) / 527.4 / 1000
  let kappa_TaA : ℝ := 0.92 / 100e-9
  let TotalMaxActivRateM : ℝ := 0.20 * xi
  let K_TbM : ℝ := 5.9e-11
  let K_TaM : ℝ := 2.24e-12 * 2e2
  let kappa_MhatantiTb_max : ℝ := 10 * (47e-12 / 18 * 24) / (2e6 * m_Mhat)
  let kappa_MhatantiI10 : ℝ := 660e-12 / (2e5 * m_Mhat)
  let kappa_MhatproTa : ℝ := (1.5e-9 / 18 * 24) / (4e6 * m_Mhat)
  let kappa_MhatproP : ℝ := 11e-9 / (2e6 * m_Mhat)
  let kappa_AP_min : ℝ := (1 / 10) * kappa_MhatproP
  { AP := APOE4_status
    S := Sex
    rho_cerveau := rho_cerveau
    N_0 := if Sex = 0 then 0.45 else 0.42
    A_0 := if Sex = 0 then 0.10 else 0.12
    lambda_ABi := lambda_ABi
    delta_APi := delta_APi
    d_ABi := Real.log 2 / (1.75 / 24)
    lambda_ABmo := lambda_ABmo
    delta_APm := delta_APi
    lambda_AABmo := (1 / 13) * lambda_ABmo
    kappa_ABmoABoo := kappa_ABmoABoo_min
    delta_APmo := 2.7 - 1
    d_ABmo := d_ABmoFun
    kappa_ABooABpo := (3 / 7) * 1e6 * 1000 / (2 * M_ABm)
    d_ABoo := 0.3e-3 * 86400
    d_hatMantiABpo := Real.log 2 / 3
    d_MantiABpo := Real.log 2 / 0.85
    delta_APdp := (5 / 20) - 1
    K_ABpo := K_ABpo
    Ins := InsFun
    Ins_0 := InsFun (365 * 30) Sex
    d_G := d_G
    G_0 := G_0
    lambda_InsG := d_G * G_0
    lambda_tau := 26.3e-12
    lambda_Gtau := ((20 / 21) - (20 / 57)) * 1e-6 / 0.5 / 1000 / 1000 * 72500
    kappa_tauFi := (100 / 3) * 1e-6 / 19344 * 86400 * 1000
    d_tau := d_tau
    d_Fi := 1e-2 * d_tau
    kappa_MFo := 0.4
    K_Manti := if Sex = 0 then (1 / 4) * 3.811e-2 else (1 / 4) * 3.193e-2
    d_Fo := 1 / 10 * d_tau
    d_FiN := 1 / (2.51 * 365)
    K_Fi := 1.25e-10
    n := 15
    d_TaN := 7.26e-3 / 365 * 10
    K_Ta := 4.48e-12
    K_I10 := 2.12e-12
    A_max := if Sex = 0 then 0.10 else 0.12
    kappa_TaA := kappa_TaA
    kappa_ABpoA := (kappa_TaA * 2.24e-12) / (2 * K_ABpo)
    d_A := 0.4
    kappa_FoM := TotalMaxActivRateM * 2 / 3
    K_Fo := 11 * ((1000 * 72500) / Avogadro) * 1000
    kappa_ABooM := TotalMaxActivRateM * 1 / 3
    K_ABooM := 0.060 / 527.4 / 1000 * 1.5e2
    d_Mpro := 7.67e-4
    d_Manti := 7.67e-4
    beta := 1
    K_TaAct := 2.24e-12
    K_I10Act := 2.12e-12
    kappa_TbMpro := 4.8
    K_TbM := K_TbM
    kappa_TaManti := 4.8
    K_TaM := K_TaM
    kappa_PMhat := 1 / 3 * 1e-2
    K_P := 6.23e-10 * 1e2
    Mhatmax := (830 * m_Mhat) / 2e-4
    kappa_TbMhatpro := 1 / (10 / 24)
    K_TbMhat := K_TbM
    kappa_TaMhatanti := 1 / (10 / 24)
    K_TaMhat := K_TaM
    d_Mhatpro := 7.67e-4
    d_Mhatanti := 7.67e-4
    kappa_MhatantiTb := kappa_MhatantiTb_max
    kappa_MantiTb := kappa_MhatantiTb_max
    d_Tb := Real.log 2 / (3 / 1440)
    kappa_MhatantiI10 := kappa_MhatantiI10
    kappa_MantiI10 := kappa_MhatantiI10
    d_I10 := Real.log 2 / (3.556 / 24)
    kappa_MhatproTa := kappa_MhatproTa
    kappa_MproTa := kappa_MhatproTa
    d_Ta := Real.log 2 / (18.2 / 1440)
    kappa_MhatproP := kappa_MhatproP
    kappa_MproP := kappa_MhatproP
    kappa_AP := kappa_AP_min
    d_P := Real.log 2 / (3 / 24) }

/-- `Parameters.__init__` as a fallible constructor.  For a sex outside
`{0, 1}` the Python constructor raises (the sex-branched attributes `G_0` and
`A_0` are never assigned, so the later reads `self.d_G * self.G_0` and
`self.A_max = self.A_0` fail with `AttributeError`), hence no parameter object
is produced: this is embedded as `none`.  No other input is validated: the
genotype flag and `xi` are accepted unchecked. -/
def mkParameters (Sex APOE4_status xi : ℝ) : Option Parameters :=
  if Sex = 0 ∨ Sex = 1 then some (mkParametersCore Sex APOE4_status xi) else none

/-- The positive-branch quadratic root formula
`(-B + sqrt (B² - 4·A·C)) / (2·A)` used three times by `InitialConditions`
(`InitialConditions.py` lines 29, 36, 50). -/
def posRoot (A B C : ℝ) : ℝ :=
  (-B + Real.sqrt (B ^ 2 - 4 * A * C)) / (2 * A)

/-- `InitialConditions(p, AgeStart)` (`InitialConditions.py`): the vector of
initial conditions.  The numpy array `np.zeros(19)` filled entry by entry is
embedded as a function on naturals; entries never assigned (9, 13, 14 — and
any index beyond 18) stay `0`.  The plaque entry 3 is computed last, from the
oligomer equilibrium (entry 2) and the fixed microglia/macrophage entries 12
and 14, exactly as in the source — with no validation of the denominator. -/
def InitialConditions (p : Parameters) (AgeStart : ℝ) : ℕ → ℝ :=
  let y0_0 := p.lambda_ABi * (1 + p.AP * p.delta_APi) / p.d_ABi
  let y0_1 := posRoot (p.kappa_ABmoABoo * (1 + p.AP * p.delta_APmo))
    (p.d_ABmo (AgeStart * 365)) (-p.lambda_ABmo * (1 + p.AP * p.delta_APm))
  let y0_2 := posRoot p.kappa_ABooABpo p.d_ABoo
    (-(p.kappa_ABmoABoo * (1 + p.AP * p.delta_APmo) * y0_1 ^ 2))
  let y0_4 := p.G_0
  let y0_5 := posRoot p.kappa_tauFi p.d_tau (-(p.lambda_tau + p.lambda_Gtau))
  let y0_6 := p.kappa_tauFi * y0_5 ^ 2 / p.d_Fi
  let y0_7 : ℝ := 5e-17
  let y0_8 := p.N_0
  let y0_9 : ℝ := 0
  let y0_11 : ℝ := 1e-12
  let y0_12 : ℝ := 1e-4
  let M_0 : ℝ := if p.S = 0 then 3.811e-2 else 3.193e-2
  let y0_10 := M_0 - (y0_11 + y0_12)
  let y0_13 : ℝ := 0
  let y0_14 : ℝ := 0
  let Psi := p.kappa_ABooABpo * y0_2 ^ 2
  let D := (p.d_MantiABpo * y0_12 + p.d_hatMantiABpo * y0_14) * (1 + p.AP * p.delta_APdp)
  let y0_3 := Psi * p.K_ABpo / (D - Psi)
  let y0_15 := (p.kappa_MantiTb * y0_12 + p.kappa_MhatantiTb * y0_14) / p.d_Tb
  let y0_16 := (p.kappa_MantiI10 * y0_12 + p.kappa_MhatantiI10 * y0_14) / p.d_I10
  let y0_17 := (p.kappa_MproTa * y0_11 + p.kappa_MhatproTa * y0_13) / p.d_Ta
  let y0_18 := (p.kappa_MproP * y0_11 + p.kappa_MhatproP * y0_13 + p.kappa_AP * y0_9) / p.d_P
  fun i => match i with
  | 0 => y0_0
  | 1 => y0_1
  | 2 => y0_2
  | 3 => y0_3
  | 4 => y0_4
  | 5 => y0_5
  | 6 => y0_6
  | 7 => y0_7
  | 8 => y0_8
  | 9 => y0_9
  | 10 => y0_10
  | 11 => y0_11
  | 12 => y0_12
  | 13 => y0_13
  | 14 => y0_14
  | 15 => y0_15
  | 16 => y0_16
  | 17 => y0_17
  | 18 => y0_18
  | _ => 0

/-- The oligomer-to-plaque conversion flux `Psi` of the plaque-equilibrium
step (`InitialConditions.py` line 87): `kappa_ABooABpo` times the squared
oligomer equilibrium (entry 2). -/
def ICPsi (p : Parameters) (AgeStart : ℝ) : ℝ :=
  p.kappa_ABooABpo * InitialConditions p AgeStart 2 ^ 2

/-- The weighted plaque-degradation capacity `D` of the plaque-equilibrium
step (`InitialConditions.py` line 88), from the already-fixed
anti-inflammatory microglia (entry 12) and macrophage (entry 14) initial
densities. -/
def ICD (p : Parameters) (AgeStart : ℝ) : ℝ :=
  (p.d_MantiABpo * InitialConditions p AgeStart 12
    + p.d_hatMantiABpo * InitialConditions p AgeStart 14) * (1 + p.AP * p.delta_APdp)

/-- Module-level flag `InsVar = True` of `equations_SA.py`. -/
def InsVar : Bool := true

/-- `ODEsystem_SA(t, y, p)` (`equations_SA.py`): the right-hand side of the
ODE system.  The neuron-density derivative (index 8) is bound first, exactly
as in the source, and the four dilution terms (indices 0, 4, 5, 6) as well as
the release term of index 1 and the source term of index 7 reuse that bound
value through `|dydt8|`. -/
def ODEsystem_SA (t : ℝ) (y : ℕ → ℝ) (p : Parameters) : ℕ → ℝ :=
  let dydt8 := -p.d_FiN * (1 / (1 + Real.exp (-p.n * (y 6 - p.K_Fi) / p.K_Fi))) * y 8
    - p.d_TaN * (y 17 / (y 17 + p.K_Ta)) * (1 / (1 + y 16 / p.K_I10)) * y 8
  let M_activ := p.kappa_FoM * (y 7 / (y 7 + p.K_Fo)) * y 10
    + p.kappa_ABooM * (y 2 / (y 2 + p.K_ABooM)) * y 10
  let epsilon_Ta := y 17 / (y 17 + p.K_TaAct)
  let epsilon_I10 := y 16 / (y 16 + p.K_I10Act)
  fun i => match i with
  | 0 => p.lambda_ABi * (1 + p.AP * p.delta_APi) * (y 8 / p.N_0) - p.d_ABi * y 0
      - y 0 / y 8 * |dydt8|
  | 1 => y 0 / y 8 * |dydt8| + p.lambda_ABmo * (1 + p.AP * p.delta_APm) * (y 8 / p.N_0)
      + p.lambda_AABmo * (y 9 / p.A_0) - p.kappa_ABmoABoo * (1 + p.AP * p.delta_APmo) * y 1 ^ 2
      - p.d_ABmo t * y 1
  | 2 => p.kappa_ABmoABoo * (1 + p.AP * p.delta_APmo) * y 1 ^ 2 - p.kappa_ABooABpo * y 2 ^ 2
      - p.d_ABoo * y 2
  | 3 => p.kappa_ABooABpo * y 2 ^ 2 - (p.d_MantiABpo * y 12 + p.d_hatMantiABpo * y 14)
      * (1 + p.AP * p.delta_APdp) * (y 3 / (y 3 + p.K_ABpo))
  | 4 => if InsVar then
      p.lambda_InsG * (p.Ins_0 / p.Ins t p.S) * (y 8 / p.N_0) - p.d_G * y 4
        - y 4 / y 8 * |dydt8|
    else
      p.lambda_InsG * (y 8 / p.N_0) - p.d_G * y 4 - y 4 / y 8 * |dydt8|
  | 5 => p.lambda_tau * (y 8 / p.N_0) + p.lambda_Gtau * (y 4 / p.G_0)
      - p.kappa_tauFi * y 5 ^ 2 * (y 8 / p.N_0) - y 5 / y 8 * |dydt8| - p.d_tau * y 5
  | 6 => p.kappa_tauFi * y 5 ^ 2 * (y 8 / p.N_0) - y 6 / y 8 * |dydt8| - p.d_Fi * y 6
  | 7 => y 6 / y 8 * |dydt8| - p.kappa_MFo * (y 12 / (y 12 + p.K_Manti)) * y 7 - p.d_Fo * y 7
  | 8 => dydt8
  | 9 => (p.kappa_ABpoA * y 3 + p.kappa_TaA * y 17) * (p.A_max - y 9) - p.d_A * y 9
  | 10 => p.d_Mpro * y 11 + p.d_Manti * y 12 - M_activ
  | 11 => p.beta * epsilon_Ta / (p.beta * epsilon_Ta + epsilon_I10) * M_activ
      - p.kappa_TbMpro * (y 15 / (y 15 + p.K_TbM)) * y 11
      + p.kappa_TaManti * (y 17 / (y 17 + p.K_TaM)) * y 12
      - p.d_Mpro * y 11
  | 12 => epsilon_I10 / (p.beta * epsilon_Ta + epsilon_I10) * M_activ
      + p.kappa_TbMpro * (y 15 / (y 15 + p.K_TbM)) * y 11
      - p.kappa_TaManti * (y 17 / (y 17 + p.K_TaM)) * y 12 - p.d_Manti * y 12
  | 13 => p.kappa_PMhat * (y 18 / (y 18 + p.K_P)) * (p.Mhatmax - (y 13 + y 14))
      * (p.beta * epsilon_Ta / (p.beta * epsilon_Ta + epsilon_I10))
      - p.kappa_TbMhatpro * (y 15 / (y 15 + p.K_TbMhat)) * y 13
      + p.kappa_TaMhatanti * (y 17 / (y 17 + p.K_TaMhat)) * y 14 - p.d_Mhatpro * y 13
  | 14 => p.kappa_PMhat * (y 18 / (y 18 + p.K_P)) * (p.Mhatmax - (y 13 + y 14))
      * (epsilon_I10 / (p.beta * epsilon_Ta + epsilon_I10))
      + p.kappa_TbMhatpro * (y 15 / (y 15 + p.K_TbMhat)) * y 13
      - p.kappa_TaMhatanti * (y 17 / (y 17 + p.K_TaMhat)) * y 14 - p.d_Mhatanti * y 14
  | 15 => p.kappa_MantiTb * y 12 + p.kappa_MhatantiTb * y 14 - p.d_Tb * y 15
  | 16 => p.kappa_MantiI10 * y 12 + p.kappa_MhatantiI10 * y 14 - p.d_I10 * y 16
  | 17 => p.kappa_MproTa * y 11 + p.kappa_MhatproTa * y 13 - p.d_Ta * y 17
  | 18 => p.kappa_MproP * y 11 + p.kappa_MhatproP * y 13 + p.kappa_AP * y 9 - p.d_P * y 18
  | _ => 0

/-!
The sensitivity sweep of `mean_relative_change.py`.  The sweep manipulates the
parameter object only through `p.__dict__` (attribute names), `getattr`,
`setattr` and fresh construction, so for the sweep the parameter object is
embedded as its `__dict__` view: a map from attribute name to value.  The
whole pipeline `run_model_SA` + endpoint extraction `sol.y[var_int][-1]`
(initial conditions, ODE right-hand side and the external stiff integrator
`solve_ivp`, whose success or failure the source converts to `None`) is
abstracted as a function `run` returning `none` exactly when `run_model_SA`
returns `None`.
-/

/-- `setattr(p, name, v)` on the `__dict__` view: functional update of one
named attribute, all others unchanged. -/
def setParam (p : String → ℝ) (attr : String) (v : ℝ) : String → ℝ :=
  fun m => if m = attr then v else p m

/-- The parameter loop of `relative_change` (`mean_relative_change.py` lines
54-89): for every attribute name except `"S"` and `"AP"`, perturb up by
`* perturbation_factor` on a fresh construction, then down by
`/ perturbation_factor` via a second `setattr` on the same object; skip the
parameter when either run returns `None`; otherwise record the score
`100 * mean(|(vUp - orig) / orig|, |(vDown - orig) / orig|)`. -/
def sweepScores (run : (String → ℝ) → Option ℝ) (base : String → ℝ)
    (perturbation_factor original_output : ℝ) : List String → List (String × ℝ)
  | [] => []
  | attr :: rest =>
    if attr = "S" ∨ attr = "AP" then
      sweepScores run base perturbation_factor original_output rest
    else
      let original_value := base attr
      let p_up := setParam base attr (original_value * perturbation_factor)
      match run p_up with
      | none => sweepScores run base perturbation_factor original_output rest
      | some vUp =>
        let p_down := setParam p_up attr (original_value / perturbation_factor)
        match run p_down with
        | none => sweepScores run base perturbation_factor original_output rest
        | some vDown =>
          (attr, 100 * ((|(vUp - original_output) / original_output|
              + |(vDown - original_output) / original_output|) / 2))
            :: sweepScores run base perturbation_factor original_output rest

/-- `df.sort_values(by="Relative Change", ascending=False)`: stable sort of
the score table, descending by score. -/
def sortDesc (l : List (String × ℝ)) : List (String × ℝ) :=
  l.mergeSort fun a b => decide (b.2 ≤ a.2)

/-- `relative_change(...)` (`mean_relative_change.py` lines 40-92): baseline
run first — a `None` baseline aborts with an empty table — then the sweep,
then the descending sort. -/
def relative_change (run : (String → ℝ) → Option ℝ) (base : String → ℝ)
    (perturbation_factor : ℝ) (names : List String) : List (String × ℝ) :=
  match run base with
  | none => []
  | some original_output =>
    sortDesc (sweepScores run base perturbation_factor original_output names)

theorem setParam_setParam (p : String → ℝ) (attr : String) (a b : ℝ) :
    setParam (setParam p attr a) attr b = setParam p attr b := by
  funext m
  simp only [setParam]
  split <;> rfl

theorem setParam_self (p : String → ℝ) (attr : String) :
    setParam p attr (p attr) = p := by
  funext m
  simp only [setParam]
  split
  · next h => rw [h]
  · rfl

theorem mem_sortDesc (x : String × ℝ) (l : List (String × ℝ)) :
    x ∈ sortDesc l ↔ x ∈ l :=
  (List.mergeSort_perm l _).mem_iff

theorem sweepScores_cons_skip (run : (String → ℝ) → Option ℝ) (base : String → ℝ)
    (f b : ℝ) (attr : String) (rest : List String) (hskip : attr = "S" ∨ attr = "AP") :
    sweepScores run base f b (attr :: rest) = sweepScores run base f b rest := by
  simp only [sweepScores, if_pos hskip]

theorem sweepScores_cons_upFail (run : (String → ℝ) → Option ℝ) (base : String → ℝ)
    (f b : ℝ) (attr : String) (rest : List String)
    (hskip : ¬(attr = "S" ∨ attr = "AP"))
    (hup : run (setParam base attr (base attr * f)) = none) :
    sweepScores run base f b (attr :: rest) = sweepScores run base f b rest := by
  simp only [sweepScores, if_neg hskip, hup]

theorem sweepScores_cons_downFail (run : (String → ℝ) → Option ℝ) (base : String → ℝ)
    (f b : ℝ) (attr : String) (rest : List String) (vUp : ℝ)
    (hskip : ¬(attr = "S" ∨ attr = "AP"))
    (hup : run (setParam base attr (base attr * f)) = some vUp)
    (hdown : run (setParam (setParam base attr (base attr * f)) attr (base attr / f)) = none) :
    sweepScores run base f b (attr :: rest) = sweepScores run base f b rest := by
  simp only [sweepScores, if_neg hskip, hup, hdown]

theorem sweepScores_cons_success (run : (String → ℝ) → Option ℝ) (base : String → ℝ)
    (f b : ℝ) (attr : String) (rest : List String) (vUp vDown : ℝ)
    (hskip : ¬(attr = "S" ∨ attr = "AP"))
    (hup : run (setParam base attr (base attr * f)) = some vUp)
    (hdown : run (setParam (setParam base attr (base attr * f)) attr (base attr / f)) = some vDown) :
    sweepScores run base f b (attr :: rest)
      = (attr, 100 * ((|(vUp - b) / b| + |(vDown - b) / b|) / 2))
        :: sweepScores run base f b rest := by
  simp only [sweepScores, if_neg hskip, hup, hdown]

theorem mem_sweepScores_cons (run : (String → ℝ) → Option ℝ) (base : String → ℝ)
    (f b : ℝ) (m : String) (rest : List String) (x : String × ℝ)
    (hx : x ∈ sweepScores run base f b rest) :
    x ∈ sweepScores run base f b (m :: rest) := by
  by_cases hskip : m = "S" ∨ m = "AP"
  · rwa [sweepScores_cons_skip run base f b m rest hskip]
  · rcases hup : run (setParam base m (base m * f)) with _ | vUp
    · rwa [sweepScores_cons_upFail run base f b m rest hskip hup]
    · rcases hdown : run (setParam (setParam base m (base m * f)) m (base m / f)) with _ | vDown
      · rwa [sweepScores_cons_downFail run base f b m rest vUp hskip hup hdown]
      · rw [sweepScores_cons_success run base f b m rest vUp vDown hskip hup hdown]
        exact List.mem_cons_of_mem _ hx

/-!  Concrete evaluation points used by the witnesses and counterexamples. -/

/-- A parameter record with every scalar field `1` and both member functions
constantly `1`; used as a concrete evaluation point. -/
def pOnes : Parameters :=
  { AP := 1, S := 1, rho_cerveau := 1, N_0 := 1, A_0 := 1, lambda_ABi := 1,
    delta_APi := 1, d_ABi := 1, lambda_ABmo := 1, delta_APm := 1,
    lambda_AABmo := 1, kappa_ABmoABoo := 1, delta_APmo := 1,
    d_ABmo := fun _ => 1, kappa_ABooABpo := 1, d_ABoo := 1,
    d_hatMantiABpo := 1, d_MantiABpo := 1, delta_APdp := 1, K_ABpo := 1,
    Ins := fun _ _ => 1, Ins_0 := 1, d_G := 1, G_0 := 1, lambda_InsG := 1,
    lambda_tau := 1, lambda_Gtau := 1, kappa_tauFi := 1, d_tau := 1,
    d_Fi := 1, kappa_MFo := 1, K_Manti := 1, d_Fo := 1, d_FiN := 1,
    K_Fi := 1, n := 1, d_TaN := 1, K_Ta := 1, K_I10 := 1, A_max := 1,
    kappa_TaA := 1, kappa_ABpoA := 1, d_A := 1, kappa_FoM := 1, K_Fo := 1,
    kappa_ABooM := 1, K_ABooM := 1, d_Mpro := 1, d_Manti := 1, beta := 1,
    K_TaAct := 1, K_I10Act := 1, kappa_TbMpro := 1, K_TbM := 1,
    kappa_TaManti := 1, K_TaM := 1, kappa_PMhat := 1, K_P := 1, Mhatmax := 1,
    kappa_TbMhatpro := 1, K_TbMhat := 1, kappa_TaMhatanti := 1, K_TaMhat := 1,
    d_Mhatpro := 1, d_Mhatanti := 1, kappa_MhatantiTb := 1, kappa_MantiTb := 1,
    d_Tb := 1, kappa_MhatantiI10 := 1, kappa_MantiI10 := 1, d_I10 := 1,
    kappa_MhatproTa := 1, kappa_MproTa := 1, d_Ta := 1, kappa_MhatproP := 1,
    kappa_MproP := 1, kappa_AP := 1, d_P := 1 }

/-- The constant state vector with every entry `1`. -/
def yOne : ℕ → ℝ := fun _ => 1

/-- A state vector whose neuron density (entry 8) is zero and all other
entries are `1`. -/
def yZero8 : ℕ → ℝ := fun i => if i = 8 then 0 else 1

/-- A parameter record violating the plaque-equilibrium precondition: with
zero monomer degradation, zero oligomer degradation and zero plaque-clearance
rates, the oligomer equilibrium is `1`, so `Psi = 1` while `D = 0 ≤ Psi`. -/
def pCex : Parameters :=
  { pOnes with
    AP := 0
    d_ABmo := fun _ => 0
    d_ABoo := 0
    d_MantiABpo := 0
    d_hatMantiABpo := 0 }

theorem posRoot_one : posRoot 1 0 (-1) = 1 := by
  unfold posRoot
  rw [show (0 : ℝ) ^ 2 - 4 * 1 * (-1) = 2 ^ 2 by norm_num, Real.sqrt_sq (by norm_num)]
  norm_num

/-- Claim C2: for every age `t` and state `y` with `y 8 > 0`, the neuron
derivative (index 8) is computed first — in the embedding it is the shared
`let`-bound value — and each derivative at indices 0, 4, 5 and 6 carries the
dilution term `y i / y 8 * |dydt 8|`, where `dydt 8` is exactly the
already-computed index-8 component of the same call of `ODEsystem_SA`. -/
theorem C2_dilution_terms (t : ℝ) (y : ℕ → ℝ) (p : Parameters) (h8 : 0 < y 8) :
    ODEsystem_SA t y p 0
        = p.lambda_ABi * (1 + p.AP * p.delta_APi) * (y 8 / p.N_0) - p.d_ABi * y 0
          - y 0 / y 8 * |ODEsystem_SA t y p 8|
      ∧ ODEsystem_SA t y p 4
        = p.lambda_InsG * (p.Ins_0 / p.Ins t p.S) * (y 8 / p.N_0) - p.d_G * y 4
          - y 4 / y 8 * |ODEsystem_SA t y p 8|
      ∧ ODEsystem_SA t y p 5
        = p.lambda_tau * (y 8 / p.N_0) + p.lambda_Gtau * (y 4 / p.G_0)
          - p.kappa_tauFi * y 5 ^ 2 * (y 8 / p.N_0) - y 5 / y 8 * |ODEsystem_SA t y p 8|
          - p.d_tau * y 5
      ∧ ODEsystem_SA t y p 6
        = p.kappa_tauFi * y 5 ^ 2 * (y 8 / p.N_0) - y 6 / y 8 * |ODEsystem_SA t y p 8|
          - p.d_Fi * y 6 :=
  ⟨rfl, rfl, rfl, rfl⟩

/-- Witness for C2 at the concrete point `(t, y, p) = (0, yOne, pOnes)`. -/
theorem C2_dilution_terms_witness :
    0 < yOne 8
      ∧ (ODEsystem_SA 0 yOne pOnes 0
          = pOnes.lambda_ABi * (1 + pOnes.AP * pOnes.delta_APi) * (yOne 8 / pOnes.N_0)
            - pOnes.d_ABi * yOne 0 - yOne 0 / yOne 8 * |ODEsystem_SA 0 yOne pOnes 8|
        ∧ ODEsystem_SA 0 yOne pOnes 4
          = pOnes.lambda_InsG * (pOnes.Ins_0 / pOnes.Ins 0 pOnes.S) * (yOne 8 / pOnes.N_0)
            - pOnes.d_G * yOne 4 - yOne 4 / yOne 8 * |ODEsystem_SA 0 yOne pOnes 8|
        ∧ ODEsystem_SA 0 yOne pOnes 5
          = pOnes.lambda_tau * (yOne 8 / pOnes.N_0) + pOnes.lambda_Gtau * (yOne 4 / pOnes.G_0)
            - pOnes.kappa_tauFi * yOne 5 ^ 2 * (yOne 8 / pOnes.N_0)
            - yOne 5 / yOne 8 * |ODEsystem_SA 0 yOne pOnes 8| - pOnes.d_tau * yOne 5
        ∧ ODEsystem_SA 0 yOne pOnes 6
          = pOnes.kappa_tauFi * yOne 5 ^ 2 * (yOne 8 / pOnes.N_0)
            - yOne 6 / yOne 8 * |ODEsystem_SA 0 yOne pOnes 8| - pOnes.d_Fi * yOne 6) :=
  ⟨by norm_num [yOne], C2_dilution_terms 0 yOne pOnes (by norm_num [yOne])⟩

/-- Claim C3: the quadratic-root selection
`(-B + sqrt (B² - 4·A·C)) / (2·A)` used by `InitialConditions` for the
extracellular monomer, the extracellular oligomer and the intracellular tau
equilibria returns a strictly positive value whenever `A > 0` and `C < 0`. -/
theorem C3_posRoot_pos (A B C : ℝ) (hA : 0 < A) (hC : C < 0) : 0 < posRoot A B C := by
  have h4 : 0 < -(4 * A * C) := by nlinarith
  have hdisc : B ^ 2 < B ^ 2 - 4 * A * C := by linarith
  have hB : |B| < Real.sqrt (B ^ 2 - 4 * A * C) := by
    rw [← Real.sqrt_sq_eq_abs]
    exact Real.sqrt_lt_sqrt (sq_nonneg B) hdisc
  have hnum : 0 < -B + Real.sqrt (B ^ 2 - 4 * A * C) := by
    have := le_abs_self B
    linarith
  unfold posRoot
  exact div_pos hnum (by linarith)

/-- Witness for C3 at `(A, B, C) = (1, 0, -1)`. -/
theorem C3_posRoot_pos_witness : (0 : ℝ) < 1 ∧ (-1 : ℝ) < 0 ∧ 0 < posRoot 1 0 (-1) :=
  ⟨by norm_num, by norm_num, C3_posRoot_pos 1 0 (-1) (by norm_num) (by norm_num)⟩

/-- Claim C9: wherever the right-hand side is defined (positive neuron density
and nonzero polarization-split denominator `β·εTa + εI10`), the derivatives of
resting, pro-inflammatory and anti-inflammatory microglia sum to zero, and the
initial conditions fix the total microglia mass at the sex-specific `M_0`. -/
theorem C9_microglia_conservation (t a : ℝ) (y : ℕ → ℝ) (p : Parameters)
    (h8 : 0 < y 8)
    (hden : p.beta * (y 17 / (y 17 + p.K_TaAct)) + y 16 / (y 16 + p.K_I10Act) ≠ 0) :
    ODEsystem_SA t y p 10 + ODEsystem_SA t y p 11 + ODEsystem_SA t y p 12 = 0
      ∧ InitialConditions p a 10 + InitialConditions p a 11 + InitialConditions p a 12
        = (if p.S = 0 then 3.811e-2 else 3.193e-2) := by
  constructor
  · have e10 : ODEsystem_SA t y p 10
        = p.d_Mpro * y 11 + p.d_Manti * y 12
          - (p.kappa_FoM * (y 7 / (y 7 + p.K_Fo)) * y 10
            + p.kappa_ABooM * (y 2 / (y 2 + p.K_ABooM)) * y 10) := rfl
    have e11 : ODEsystem_SA t y p 11
        = p.beta * (y 17 / (y 17 + p.K_TaAct))
            / (p.beta * (y 17 / (y 17 + p.K_TaAct)) + y 16 / (y 16 + p.K_I10Act))
            * (p.kappa_FoM * (y 7 / (y 7 + p.K_Fo)) * y 10
              + p.kappa_ABooM * (y 2 / (y 2 + p.K_ABooM)) * y 10)
          - p.kappa_TbMpro * (y 15 / (y 15 + p.K_TbM)) * y 11
          + p.kappa_TaManti * (y 17 / (y 17 + p.K_TaM)) * y 12
          - p.d_Mpro * y 11 := rfl
    have e12 : ODEsystem_SA t y p 12
        = y 16 / (y 16 + p.K_I10Act)
            / (p.beta * (y 17 / (y 17 + p.K_TaAct)) + y 16 / (y 16 + p.K_I10Act))
            * (p.kappa_FoM * (y 7 / (y 7 + p.K_Fo)) * y 10
              + p.kappa_ABooM * (y 2 / (y 2 + p.K_ABooM)) * y 10)
          + p.kappa_TbMpro * (y 15 / (y 15 + p.K_TbM)) * y 11
          - p.kappa_TaManti * (y 17 / (y 17 + p.K_TaM)) * y 12 - p.d_Manti * y 12 := rfl
    have key : p.beta * (y 17 / (y 17 + p.K_TaAct))
          / (p.beta * (y 17 / (y 17 + p.K_TaAct)) + y 16 / (y 16 + p.K_I10Act))
        + y 16 / (y 16 + p.K_I10Act)
          / (p.beta * (y 17 / (y 17 + p.K_TaAct)) + y 16 / (y 16 + p.K_I10Act)) = 1 := by
      rw [div_add_div_same, div_self hden]
    rw [e10, e11, e12]
    linear_combination (p.kappa_FoM * (y 7 / (y 7 + p.K_Fo)) * y 10
      + p.kappa_ABooM * (y 2 / (y 2 + p.K_ABooM)) * y 10) * key
  · have i10 : InitialConditions p a 10
        = (if p.S = 0 then (3.811e-2 : ℝ) else 3.193e-2) - (1e-12 + 1e-4) := rfl
    have i11 : InitialConditions p a 11 = 1e-12 := rfl
    have i12 : InitialConditions p a 12 = 1e-4 := rfl
    rw [i10, i11, i12]
    ring

/-- Witness for C9 at the concrete point `(t, a, y, p) = (0, 30, yOne, pOnes)`. -/
theorem C9_microglia_conservation_witness :
    0 < yOne 8
      ∧ pOnes.beta * (yOne 17 / (yOne 17 + pOnes.K_TaAct))
          + yOne 16 / (yOne 16 + pOnes.K_I10Act) ≠ 0
      ∧ (ODEsystem_SA 0 yOne pOnes 10 + ODEsystem_SA 0 yOne pOnes 11
            + ODEsystem_SA 0 yOne pOnes 12 = 0
        ∧ InitialConditions pOnes 30 10 + InitialConditions pOnes 30 11
            + InitialConditions pOnes 30 12
          = (if pOnes.S = 0 then 3.811e-2 else 3.193e-2)) :=
  ⟨by norm_num [yOne],
   by norm_num [yOne, pOnes],
   C9_microglia_conservation 0 30 yOne pOnes (by norm_num [yOne])
     (by norm_num [yOne, pOnes])⟩

/-- Claim C10: the scaling factor `xi` reaches exactly the two microglia
activation rates: a parameter set derived at `xi` equals the parameter set
derived at `xi = 1` with only `kappa_FoM` and `kappa_ABooM` overridden, and
those two satisfy `kappa_FoM = (2/3)·0.20·xi`, `kappa_ABooM = (1/3)·0.20·xi`,
`kappa_FoM = 2·kappa_ABooM` and `kappa_FoM + kappa_ABooM = 0.20·xi`. -/
theorem C10_xi_scope (Sex APOE4_status xi : ℝ) :
    mkParametersCore Sex APOE4_status xi
        = { mkParametersCore Sex APOE4_status 1 with
            kappa_FoM := 0.20 * xi * 2 / 3
            kappa_ABooM := 0.20 * xi * 1 / 3 }
      ∧ (mkParametersCore Sex APOE4_status xi).kappa_FoM = 2 / 3 * (0.20 * xi)
      ∧ (mkParametersCore Sex APOE4_status xi).kappa_ABooM = 1 / 3 * (0.20 * xi)
      ∧ (mkParametersCore Sex APOE4_status xi).kappa_FoM
          = 2 * (mkParametersCore Sex APOE4_status xi).kappa_ABooM
      ∧ (mkParametersCore Sex APOE4_status xi).kappa_FoM
          + (mkParametersCore Sex APOE4_status xi).kappa_ABooM = 0.20 * xi := by
  refine ⟨rfl, ?_, ?_, ?_, ?_⟩
  · show 0.20 * xi * 2 / 3 = 2 / 3 * (0.20 * xi)
    ring
  · show 0.20 * xi * 1 / 3 = 1 / 3 * (0.20 * xi)
    ring
  · show 0.20 * xi * 2 / 3 = 2 * (0.20 * xi * 1 / 3)
    ring
  · show 0.20 * xi * 2 / 3 + 0.20 * xi * 1 / 3 = 0.20 * xi
    ring

/-- Claim C4 counterexample: construction does not fail on out-of-range `xi`
or genotype — `Parameters(0, 0, xi=2)` with `xi = 2 ∉ (0,1]` and
`Parameters(0, 2)` with genotype flag `2 ∉ {0,1}` both return parameter
objects, so no `InvalidParameter` is signaled for them. -/
theorem C4_counterexample :
    mkParameters 0 0 2 ≠ none ∧ mkParameters 0 2 1 ≠ none := by
  constructor <;> simp [mkParameters]

/-- Claim C4 (amended): `Parameters.__init__` validates nothing explicitly;
construction fails (with an `AttributeError`, not a dedicated
`InvalidParameter`) exactly when the sex is outside `{0, 1}`.  The genotype
flag and `xi` are never checked: for a valid sex, every genotype value and
every `xi` — including `xi ∉ (0, 1]` — yields a parameter object. -/
theorem C4_validation (Sex APOE4_status xi : ℝ) :
    mkParameters Sex APOE4_status xi = none ↔ ¬(Sex = 0 ∨ Sex = 1) := by
  unfold mkParameters
  split
  · next h => simp [h]
  · next h => simp [h]

theorem pCex_IC1 : InitialConditions pCex 30 1 = 1 := by
  have e : InitialConditions pCex 30 1
      = posRoot (1 * (1 + 0 * 1)) 0 (-1 * (1 + 0 * 1)) := rfl
  rw [e]
  norm_num
  exact posRoot_one

theorem pCex_IC2 : InitialConditions pCex 30 2 = 1 := by
  have e : InitialConditions pCex 30 2
      = posRoot 1 0 (-(1 * (1 + 0 * 1) * InitialConditions pCex 30 1 ^ 2)) := rfl
  rw [e, pCex_IC1]
  norm_num
  exact posRoot_one

theorem pCex_ICPsi : ICPsi pCex 30 = 1 := by
  show pCex.kappa_ABooABpo * InitialConditions pCex 30 2 ^ 2 = 1
  rw [pCex_IC2]
  show (1 : ℝ) * 1 ^ 2 = 1
  norm_num

theorem pCex_ICD : ICD pCex 30 = 0 := by
  show (pCex.d_MantiABpo * InitialConditions pCex 30 12
      + pCex.d_hatMantiABpo * InitialConditions pCex 30 14) * (1 + pCex.AP * pCex.delta_APdp) = 0
  show ((0 : ℝ) * 1e-4 + 0 * 0) * (1 + 0 * 1) = 0
  norm_num

/-- Claim C1 counterexample: at the parameter record `pCex` (which violates
the plaque-equilibrium precondition: `D = 0 ≤ Psi = 1`), `InitialConditions`
does not signal any `EquilibriumDomainError` — no such error exists in the
code — and returns a state vector whose plaque entry is the negative value
`Psi·K_ABpo/(D - Psi) = -1`. -/
theorem C1_counterexample : InitialConditions pCex 30 3 = -1 := by
  have he : InitialConditions pCex 30 3
      = ICPsi pCex 30 * pCex.K_ABpo / (ICD pCex 30 - ICPsi pCex 30) := rfl
  rw [he, pCex_ICPsi, pCex_ICD]
  show (1 : ℝ) * 1 / (0 - 1) = -1
  norm_num

/-- Claim C1 (amended): `InitialConditions` performs no validation of the
plaque-equilibrium precondition: it always returns the full vector with entry
3 equal to `Psi·K_ABpo/(D - Psi)`, and when `D < Psi` (with positive `Psi`
and `K_ABpo`) that returned entry is negative — no `EquilibriumDomainError`
is signaled. -/
theorem C1_no_guard (p : Parameters) (a : ℝ)
    (hlt : ICD p a < ICPsi p a) (hPsi : 0 < ICPsi p a) (hK : 0 < p.K_ABpo) :
    InitialConditions p a 3 = ICPsi p a * p.K_ABpo / (ICD p a - ICPsi p a)
      ∧ InitialConditions p a 3 < 0 := by
  have he : InitialConditions p a 3
      = ICPsi p a * p.K_ABpo / (ICD p a - ICPsi p a) := rfl
  refine ⟨he, ?_⟩
  rw [he]
  exact div_neg_of_pos_of_neg (mul_pos hPsi hK) (by linarith)

/-- Witness for C1 at the concrete record `pCex`, start age 30. -/
theorem C1_no_guard_witness :
    ICD pCex 30 < ICPsi pCex 30 ∧ 0 < ICPsi pCex 30 ∧ 0 < pCex.K_ABpo
      ∧ (InitialConditions pCex 30 3
          = ICPsi pCex 30 * pCex.K_ABpo / (ICD pCex 30 - ICPsi pCex 30)
        ∧ InitialConditions pCex 30 3 < 0) := by
  have hK : (0 : ℝ) < pCex.K_ABpo := by
    show (0 : ℝ) < 1
    norm_num
  refine ⟨?_, ?_, hK, C1_no_guard pCex 30 ?_ ?_ hK⟩ <;>
    simp only [pCex_ICPsi, pCex_ICD] <;> norm_num

/-- Claim C7 counterexample: at neuron density zero (`yZero8 8 = 0`),
`ODEsystem_SA` does not guard the dilution quotients and does not signal any
`DivisionByZero` — no such check exists in the code — it returns a derivative
vector (here with entry 0 equal to `-1` under the real-field embedding; the
floating-point code silently produces non-finite entries instead). -/
theorem C7_counterexample : ODEsystem_SA 0 yZero8 pOnes 0 = -1 := by
  have h8 : ODEsystem_SA 0 yZero8 pOnes 8 = 0 := by
    have e : ODEsystem_SA 0 yZero8 pOnes 8
        = -pOnes.d_FiN * (1 / (1 + Real.exp (-pOnes.n * (yZero8 6 - pOnes.K_Fi) / pOnes.K_Fi)))
            * yZero8 8
          - pOnes.d_TaN * (yZero8 17 / (yZero8 17 + pOnes.K_Ta))
            * (1 / (1 + yZero8 16 / pOnes.K_I10)) * yZero8 8 := rfl
    rw [e, show yZero8 8 = 0 from rfl]
    ring
  have e0 : ODEsystem_SA 0 yZero8 pOnes 0
      = pOnes.lambda_ABi * (1 + pOnes.AP * pOnes.delta_APi) * (yZero8 8 / pOnes.N_0)
        - pOnes.d_ABi * yZero8 0 - yZero8 0 / yZero8 8 * |ODEsystem_SA 0 yZero8 pOnes 8| := rfl
  rw [e0, h8]
  show (1 : ℝ) * (1 + 1 * 1) * (0 / 1) - 1 * 1 - 1 / 0 * |(0 : ℝ)| = -1
  norm_num

/-- Claim C7 (amended): `ODEsystem_SA` contains no guard on the neuron
density or on the insulin value: for every input with `y 8 = 0` it still
returns the derivative vector — under the real-field convention `x / 0 = 0`
the four dilution terms vanish, so entries 0, 4, 5 and 6 reduce to their
production and degradation parts; the floating-point code instead propagates
non-finite values silently.  No `DivisionByZero` is signaled anywhere. -/
theorem C7_no_guard (t : ℝ) (y : ℕ → ℝ) (p : Parameters) (h8 : y 8 = 0) :
    ODEsystem_SA t y p 0
        = p.lambda_ABi * (1 + p.AP * p.delta_APi) * (y 8 / p.N_0) - p.d_ABi * y 0
      ∧ ODEsystem_SA t y p 4
        = p.lambda_InsG * (p.Ins_0 / p.Ins t p.S) * (y 8 / p.N_0) - p.d_G * y 4
      ∧ ODEsystem_SA t y p 5
        = p.lambda_tau * (y 8 / p.N_0) + p.lambda_Gtau * (y 4 / p.G_0)
          - p.kappa_tauFi * y 5 ^ 2 * (y 8 / p.N_0) - p.d_tau * y 5
      ∧ ODEsystem_SA t y p 6
        = p.kappa_tauFi * y 5 ^ 2 * (y 8 / p.N_0) - p.d_Fi * y 6 := by
  have hz : ∀ c : ℝ, c / y 8 * |ODEsystem_SA t y p 8| = 0 := fun c => by
    rw [h8, div_zero, zero_mul]
  refine ⟨?_, ?_, ?_, ?_⟩
  · have e : ODEsystem_SA t y p 0
        = p.lambda_ABi * (1 + p.AP * p.delta_APi) * (y 8 / p.N_0) - p.d_ABi * y 0
          - y 0 / y 8 * |ODEsystem_SA t y p 8| := rfl
    rw [e, hz, sub_zero]
  · have e : ODEsystem_SA t y p 4
        = p.lambda_InsG * (p.Ins_0 / p.Ins t p.S) * (y 8 / p.N_0) - p.d_G * y 4
          - y 4 / y 8 * |ODEsystem_SA t y p 8| := rfl
    rw [e, hz, sub_zero]
  · have e : ODEsystem_SA t y p 5
        = p.lambda_tau * (y 8 / p.N_0) + p.lambda_Gtau * (y 4 / p.G_0)
          - p.kappa_tauFi * y 5 ^ 2 * (y 8 / p.N_0) - y 5 / y 8 * |ODEsystem_SA t y p 8|
          - p.d_tau * y 5 := rfl
    rw [e, hz, sub_zero]
  · have e : ODEsystem_SA t y p 6
        = p.kappa_tauFi * y 5 ^ 2 * (y 8 / p.N_0) - y 6 / y 8 * |ODEsystem_SA t y p 8|
          - p.d_Fi * y 6 := rfl
    rw [e, hz, sub_zero]

/-- The constant-one parameter dictionary, a concrete sweep base point. -/
def baseOne : String → ℝ := fun _ => 1

/-- A pipeline that always fails to integrate. -/
def runNone : (String → ℝ) → Option ℝ := fun _ => none

/-- A pipeline that always succeeds with endpoint value `1`. -/
def runConst : (String → ℝ) → Option ℝ := fun _ => some 1

/-- A pipeline that succeeds (with endpoint value `7`) only when the
attribute `"x"` has the up-perturbed value `2`, and fails otherwise. -/
def runUpOnly : (String → ℝ) → Option ℝ :=
  fun q => if q "x" = 2 then some 7 else none

theorem mem_sweepScores_of_mem (run : (String → ℝ) → Option ℝ) (base : String → ℝ)
    (f b vUp vDown : ℝ) (attr : String)
    (hattr : ¬(attr = "S" ∨ attr = "AP"))
    (hup : run (setParam base attr (base attr * f)) = some vUp)
    (hdown : run (setParam (setParam base attr (base attr * f)) attr (base attr / f))
      = some vDown) :
    ∀ names : List String, attr ∈ names →
      (attr, 100 * ((|(vUp - b) / b| + |(vDown - b) / b|) / 2))
        ∈ sweepScores run base f b names := by
  intro names
  induction names with
  | nil => intro h; cases h
  | cons m rest ih =>
    intro hmem
    rcases List.mem_cons.mp hmem with h | h
    · subst h
      rw [sweepScores_cons_success run base f b attr rest vUp vDown hattr hup hdown]
      exact List.mem_cons_self _ _
    · exact mem_sweepScores_cons run base f b m rest _ (ih h)

/-- Claim C5: for a parameter name other than the categorical `"S"`/`"AP"`,
the sweep evaluates the pipeline once with that single attribute multiplied
by the perturbation factor and once with it divided by the factor — each
override on the freshly constructed base values (the second `setattr`
overwrites the first, which is exactly `setParam_setParam`) — and when both
runs succeed the returned table contains the row scored
`100 · mean(|vUp - b|/|b|, |vDown - b|/|b|)` against the baseline `b`. -/
theorem C5_sweep_score (run : (String → ℝ) → Option ℝ) (base : String → ℝ)
    (f b vUp vDown : ℝ) (names : List String) (attr : String)
    (hbase : run base = some b)
    (hattr : ¬(attr = "S" ∨ attr = "AP"))
    (hmem : attr ∈ names)
    (hup : run (setParam base attr (base attr * f)) = some vUp)
    (hdown : run (setParam base attr (base attr / f)) = some vDown) :
    (attr, 100 * ((|vUp - b| / |b| + |vDown - b| / |b|) / 2))
      ∈ relative_change run base f names := by
  have hdown2 : run (setParam (setParam base attr (base attr * f)) attr (base attr / f))
      = some vDown := by
    rw [setParam_setParam]
    exact hdown
  have habs : (100 : ℝ) * ((|vUp - b| / |b| + |vDown - b| / |b|) / 2)
      = 100 * ((|(vUp - b) / b| + |(vDown - b) / b|) / 2) := by
    rw [abs_div, abs_div]
  simp only [relative_change, hbase]
  rw [mem_sortDesc, habs]
  exact mem_sweepScores_of_mem run base f b vUp vDown attr hattr hup hdown2 names hmem

/-- Witness for C5 with the constant pipeline `runConst` at base `baseOne`,
factor 2, parameter `"a"`. -/
theorem C5_sweep_score_witness :
    ("a", 100 * ((|(1 : ℝ) - 1| / |(1 : ℝ)| + |(1 : ℝ) - 1| / |(1 : ℝ)|) / 2))
      ∈ relative_change runConst baseOne 2 ["a"] :=
  C5_sweep_score runConst baseOne 2 1 1 1 ["a"] "a" rfl (by decide)
    (List.mem_cons_self _ _) rfl rfl

/-- Claim C6: a failed baseline run aborts the scenario (empty table); a
failed up- or down-perturbed run skips exactly that parameter and the sweep
continues over the remaining parameters. -/
theorem C6_failure_policy :
    (∀ (run : (String → ℝ) → Option ℝ) (base : String → ℝ) (f : ℝ) (names : List String),
        run base = none → relative_change run base f names = [])
      ∧ (∀ (run : (String → ℝ) → Option ℝ) (base : String → ℝ) (f b : ℝ) (attr : String)
          (rest : List String), ¬(attr = "S" ∨ attr = "AP") →
          run (setParam base attr (base attr * f)) = none →
          sweepScores run base f b (attr :: rest) = sweepScores run base f b rest)
      ∧ (∀ (run : (String → ℝ) → Option ℝ) (base : String → ℝ) (f b vUp : ℝ) (attr : String)
          (rest : List String), ¬(attr = "S" ∨ attr = "AP") →
          run (setParam base attr (base attr * f)) = some vUp →
          run (setParam (setParam base attr (base attr * f)) attr (base attr / f)) = none →
          sweepScores run base f b (attr :: rest) = sweepScores run base f b rest) := by
  refine ⟨?_, ?_, ?_⟩
  · intro run base f names h
    simp only [relative_change, h]
  · intro run base f b attr rest hskip hup
    exact sweepScores_cons_upFail run base f b attr rest hskip hup
  · intro run base f b vUp attr rest hskip hup hdown
    exact sweepScores_cons_downFail run base f b attr rest vUp hskip hup hdown

/-- Witness for C6: a failing baseline on `["a"]`, a failing up-perturbation
on `["x"]`, and an up-success/down-failure on `["x"]`. -/
theorem C6_failure_policy_witness :
    relative_change runNone baseOne 2 ["a"] = []
      ∧ sweepScores runNone baseOne 2 5 ["x"] = sweepScores runNone baseOne 2 5 []
      ∧ sweepScores runUpOnly baseOne 2 5 ["x"] = sweepScores runUpOnly baseOne 2 5 [] :=
  ⟨C6_failure_policy.1 runNone baseOne 2 ["a"] rfl,
   C6_failure_policy.2.1 runNone baseOne 2 5 "x" [] (by decide) rfl,
   C6_failure_policy.2.2 runUpOnly baseOne 2 5 7 "x" [] (by decide)
     (by norm_num [runUpOnly, setParam, baseOne])
     (by norm_num [runUpOnly, setParam, baseOne])⟩

theorem sweepScores_factor_one (run : (String → ℝ) → Option ℝ) (base : String → ℝ)
    (b : ℝ) (hbase : run base = some b) :
    ∀ (names : List String) (x : String × ℝ),
      x ∈ sweepScores run base 1 b names → x.2 = 0 := by
  intro names
  induction names with
  | nil =>
    intro x hx
    simp [sweepScores] at hx
  | cons m rest ih =>
    intro x hx
    by_cases hskip : m = "S" ∨ m = "AP"
    · rw [sweepScores_cons_skip run base 1 b m rest hskip] at hx
      exact ih x hx
    · have hup : run (setParam base m (base m * 1)) = some b := by
        rw [mul_one, setParam_self, hbase]
      have hdown : run (setParam (setParam base m (base m * 1)) m (base m / 1)) = some b := by
        rw [setParam_setParam, div_one, setParam_self, hbase]
      rw [sweepScores_cons_success run base 1 b m rest b b hskip hup hdown] at hx
      rcases List.mem_cons.mp hx with h | h
      · rw [h]
        norm_num
      · exact ih x h

/-- Claim C8: with perturbation factor 1 both perturbed parameter
dictionaries coincide with the baseline one, so — the pipeline being a
function of its inputs — every parameter in the returned table has score
exactly 0 (the nonzero-baseline hypothesis reflects that the Python division
by the baseline value is only meaningful for a nonzero baseline). -/
theorem C8_factor_one (run : (String → ℝ) → Option ℝ) (base : String → ℝ)
    (names : List String) (b s : ℝ) (attr : String)
    (hbase : run base = some b) (hb : b ≠ 0)
    (hmem : (attr, s) ∈ relative_change run base 1 names) : s = 0 := by
  simp only [relative_change, hbase] at hmem
  rw [mem_sortDesc] at hmem
  exact sweepScores_factor_one run base b hbase names (attr, s) hmem

/-- Witness for C8 with the constant pipeline `runConst` at base `baseOne`
over the single parameter `"a"`. -/
theorem C8_factor_one_witness :
    (100 : ℝ) * ((|((1 : ℝ) - 1) / 1| + |((1 : ℝ) - 1) / 1|) / 2) = 0 :=
  C8_factor_one runConst baseOne ["a"] 1
    (100 * ((|((1 : ℝ) - 1) / 1| + |((1 : ℝ) - 1) / 1|) / 2)) "a" rfl one_ne_zero
    (by
      simp only [relative_change, runConst]
      rw [mem_sortDesc]
      rw [sweepScores_cons_success runConst baseOne 1 1 "a" [] 1 1 (by decide) rfl rfl]
      exact List.mem_cons_self _ _)

/-- Witness for C7 at the concrete point `(t, y, p) = (0, yZero8, pOnes)`. -/
theorem C7_no_guard_witness :
    yZero8 8 = 0
      ∧ (ODEsystem_SA 0 yZero8 pOnes 0
          = pOnes.lambda_ABi * (1 + pOnes.AP * pOnes.delta_APi) * (yZero8 8 / pOnes.N_0)
            - pOnes.d_ABi * yZero8 0
        ∧ ODEsystem_SA 0 yZero8 pOnes 4
          = pOnes.lambda_InsG * (pOnes.Ins_0 / pOnes.Ins 0 pOnes.S) * (yZero8 8 / pOnes.N_0)
            - pOnes.d_G * yZero8 4
        ∧ ODEsystem_SA 0 yZero8 pOnes 5
          = pOnes.lambda_tau * (yZero8 8 / pOnes.N_0) + pOnes.lambda_Gtau * (yZero8 4 / pOnes.G_0)
            - pOnes.kappa_tauFi * yZero8 5 ^ 2 * (yZero8 8 / pOnes.N_0) - pOnes.d_tau * yZero8 5
        ∧ ODEsystem_SA 0 yZero8 pOnes 6
          = pOnes.kappa_tauFi * yZero8 5 ^ 2 * (yZero8 8 / pOnes.N_0)
            - pOnes.d_Fi * yZero8 6) :=
  ⟨rfl, C7_no_guard 0 yZero8 pOnes rfl⟩

end
